import Mathlib

/-!
Shallow embedding of the Digital Warranty Repair Ticketing System core:
the ticket lifecycle engine, warranty calculator, and the payment/feedback
attachment operations, translated from the Flask application sources
(`models.py`, `forms.py`, `routes/customer.py`, `routes/technician.py`,
`routes/admin.py`).

Modelling conventions:
* `datetime` values are natural numbers counting seconds; `timedelta(days=d)`
  is `d * 86400` seconds, and `timedelta.days` of a non-negative duration is
  Nat division by `86400` (Python floors toward zero on non-negative values).
* statuses, priorities and roles are the `String` constants the code uses.
* nullable numeric columns are `Option` values; `repair_cost` is `Option Rat`.
* each route handler becomes a pure function from the acting user, the ticket
  (and other read state) and the submitted form data to an outcome record
  holding the resulting database ticket, the activity-log row written (if
  any) and the error taken (if any).  A handler branch that flashes an error
  and redirects or re-renders without committing leaves the database ticket
  unchanged, so on an error the outcome's ticket is the input ticket.
-/

namespace WarrantyRepair

/-- Account holder (`models.py` `User`): role string plus active / soft-delete
flags; only the fields the lifecycle engine consults are embedded. -/
structure User where
  id : Nat
  role : String
  is_active : Bool
  is_deleted : Bool
deriving DecidableEq, Repr

/-- Embeds `User.is_technician` (`models.py` line 53). -/
def User.is_technician (u : User) : Bool :=
  u.role == "technician"

/-- Embeds `User.is_admin` (`models.py` line 57). -/
def User.is_admin (u : User) : Bool :=
  u.role == "admin"

/-- Embeds `User.is_customer` (`models.py` line 61). -/
def User.is_customer (u : User) : Bool :=
  u.role == "customer"

/-- Registered product (`models.py` `Product`). -/
structure Product where
  id : Nat
  serial_number : String
  purchase_date : Nat
  warranty_months : Nat
  warranty_expiry : Nat
  is_deleted : Bool
  user_id : Nat
deriving DecidableEq, Repr

/-- Seconds in one day: the unit behind `timedelta(days=...)`. -/
def secondsPerDay : Nat := 86400

/-- Expiry formula `warranty_expiry = purchase_date + timedelta(days=30*warranty_months)`
(`routes/customer.py` `add_product`, line 102; same formula in
`edit_product`, line 164). -/
def computeExpiry (purchase_date warranty_months : Nat) : Nat :=
  purchase_date + 30 * warranty_months * secondsPerDay

/-- Embeds `Product.warranty_status` (`models.py` lines 97-107): `deleted` for a
soft-deleted product, `expired` when `warranty_expiry < now` (strict),
`expiring_soon` when the whole days remaining are fewer than 30, else
`active`. -/
def Product.warranty_status (p : Product) (now : Nat) : String :=
  if p.is_deleted then "deleted"
  else if p.warranty_expiry < now then "expired"
  else if (p.warranty_expiry - now) / secondsPerDay < 30 then "expiring_soon"
  else "active"

/-- Repair ticket (`models.py` `Ticket`). -/
structure Ticket where
  id : Nat
  ticket_number : String
  product_id : Nat
  customer_id : Nat
  technician_id : Option Nat
  issue_description : String
  status : String
  priority : String
  repair_cost : Option Rat
  is_warranty_covered : Bool
  is_paid : Bool
  is_deleted : Bool
  created_at : Nat
  updated_at : Nat
deriving DecidableEq, Repr

/-- Activity-log row (`models.py` `ActivityLog`). -/
structure ActivityLog where
  user_id : Nat
  action : String
  resource_type : String
  resource_id : Option Nat
deriving DecidableEq, Repr

/-- Feedback row (`models.py` `Feedback`). -/
structure Feedback where
  ticket_id : Nat
  user_id : Nat
  rating : Nat
  comment : String
deriving DecidableEq, Repr

/-- The choices of `TicketStatusForm.status` (`forms.py` lines 86-93); a
posted status outside this list fails WTForms validation. -/
def validStatuses : List String :=
  ["open", "in_progress", "waiting_for_parts", "completed", "closed", "rejected"]

/-- The choices of `TicketForm.priority` (`forms.py` lines 72-77). -/
def validPriorities : List String :=
  ["low", "medium", "high", "urgent"]

/-- Validators of `TicketStatusForm.repair_cost` (`forms.py` line 94):
optional, but when present at least 0. -/
def costOK (c : Option Rat) : Bool :=
  match c with
  | none => true
  | some c => 0 ≤ c

/-- Outcomes of `update_status` (`routes/technician.py` lines 134-192).
`Forbidden` covers the `technician_required` redirect and the
assigned-technician/admin ownership check; `InvalidTransition` is the
completed-ticket guard; `FormInvalid` is a failed WTForms validation
(re-render, nothing committed); `MissingRepairCost` is the completion
gate for paid repairs. -/
inductive UpdError where
  | Forbidden
  | InvalidTransition
  | FormInvalid
  | MissingRepairCost
deriving DecidableEq, Repr

/-- Result of a `update_status` request: the ticket as persisted after the
request, the activity-log row committed with it (if any), and the error the
handler took (if any).  Every error branch leaves the database row
untouched, so on error `ticket` is the input ticket. -/
structure UpdateOutcome where
  ticket : Ticket
  log : Option ActivityLog
  error : Option UpdError
deriving DecidableEq, Repr

/-- Embeds `update_status` (`routes/technician.py` lines 134-192): guards in source
order — `technician_required` decorator, assigned-technician-or-admin check
(line 141), completed-ticket guard (line 146), form validation, the
missing-repair-cost gate for completing a paid repair with no cost anywhere
(line 156), then the mutation (status, optional repair cost, `updated_at`)
and a second repair-cost re-check (line 166, which re-renders without
committing, rolling the mutation back), and finally the commit together
with a `ticket_status_updated` activity row. -/
def update_status (actor : User) (t : Ticket) (newStatus : String)
    (newCost : Option Rat) (now : Nat) : UpdateOutcome :=
  if actor.is_deleted ∨ (¬ actor.is_technician ∧ ¬ actor.is_admin) then
    ⟨t, none, some .Forbidden⟩
  else if t.technician_id ≠ some actor.id ∧ ¬ actor.is_admin then
    ⟨t, none, some .Forbidden⟩
  else if t.status = "completed" then
    ⟨t, none, some .InvalidTransition⟩
  else if ¬ (newStatus ∈ validStatuses ∧ costOK newCost) then
    ⟨t, none, some .FormInvalid⟩
  else if newStatus = "completed" ∧ t.is_warranty_covered = false ∧
      newCost = none ∧ t.repair_cost = none then
    ⟨t, none, some .MissingRepairCost⟩
  else
    let t1 : Ticket :=
      { t with
        status := newStatus
        repair_cost := match newCost with
          | some c => some c
          | none => t.repair_cost
        updated_at := now }
    if t.status ≠ "completed" ∧ newStatus = "completed" ∧
        t1.is_warranty_covered = false ∧ t1.repair_cost = none then
      ⟨t, none, some .MissingRepairCost⟩
    else
      ⟨t1, some ⟨actor.id, "ticket_status_updated", "ticket", some t.id⟩, none⟩

/-- Outcomes of `pay_ticket` (`routes/customer.py` lines 348-398).
`Forbidden` covers the `customer_required` redirect and the ownership
check; `InvalidState` is the not-yet-completed guard; `NotApplicable` the
warranty-covered guard; `AlreadyPaid` the duplicate-payment guard;
`FormInvalid` a failed `PaymentForm` validation. -/
inductive PayError where
  | Forbidden
  | InvalidState
  | NotApplicable
  | AlreadyPaid
  | FormInvalid
deriving DecidableEq, Repr

/-- Result of a `pay_ticket` request; on error the ticket is unchanged. -/
structure PayOutcome where
  ticket : Ticket
  log : Option ActivityLog
  error : Option PayError
deriving DecidableEq, Repr

/-- Embeds `pay_ticket` (`routes/customer.py` lines 348-398): guards in source
order — `customer_required` decorator (deleted users to login, admins and
technicians redirected away), ownership (line 354), status must already be
`completed` or `closed` (line 358), warranty-covered tickets never pay
(line 362), already-paid guard (line 366), `PaymentForm` UPI-id validation
(`forms.py` line 99: required, length 3-100).  On success sets
`is_paid = true`, forces `status = closed`, bumps `updated_at` and commits
one `payment_processed` activity row. -/
def pay_ticket (actor : User) (t : Ticket) (upi : String) (now : Nat) :
    PayOutcome :=
  if actor.is_deleted ∨ actor.is_admin ∨ actor.is_technician then
    ⟨t, none, some .Forbidden⟩
  else if t.customer_id ≠ actor.id then
    ⟨t, none, some .Forbidden⟩
  else if ¬ (t.status = "completed" ∨ t.status = "closed") then
    ⟨t, none, some .InvalidState⟩
  else if t.is_warranty_covered then
    ⟨t, none, some .NotApplicable⟩
  else if t.is_paid then
    ⟨t, none, some .AlreadyPaid⟩
  else if ¬ (3 ≤ upi.length ∧ upi.length ≤ 100) then
    ⟨t, none, some .FormInvalid⟩
  else
    ⟨{ t with is_paid := true, status := "closed", updated_at := now },
      some ⟨actor.id, "payment_processed", "ticket", some t.id⟩, none⟩

/-- Outcomes of `assign_technician` (`routes/admin.py` lines 299-344). -/
inductive AssignError where
  | Forbidden
  | NotFound
  | FormInvalid
deriving DecidableEq, Repr

/-- Result of an `assign_technician` request; on error the ticket is
unchanged. -/
structure AssignOutcome where
  ticket : Ticket
  log : Option ActivityLog
  error : Option AssignError
deriving DecidableEq, Repr

/-- The technician candidates offered by `assign_technician`
(`routes/admin.py` lines 310-314): users with role `technician` that are
active and not soft-deleted. -/
def technician_choices (users : List User) : List User :=
  users.filter fun u => u.role == "technician" && u.is_active && !u.is_deleted

/-- Embeds `assign_technician` (`routes/admin.py` lines 299-344): guards in source
order — `admin_required` decorator, deleted-ticket guard (line 306),
`AssignTechnicianForm` validation (the posted technician id must be one of
the offered candidate choices).  On success sets `technician_id`,
unconditionally sets `status = in_progress` (line 326), bumps `updated_at`
and commits one `ticket_assigned` activity row. -/
def assign_technician (actor : User) (t : Ticket) (users : List User)
    (techId : Nat) (now : Nat) : AssignOutcome :=
  if actor.is_deleted ∨ ¬ actor.is_admin then
    ⟨t, none, some .Forbidden⟩
  else if t.is_deleted then
    ⟨t, none, some .NotFound⟩
  else if ¬ (technician_choices users).any (fun u => u.id == techId) then
    ⟨t, none, some .FormInvalid⟩
  else
    ⟨{ t with
        technician_id := some techId
        status := "in_progress"
        updated_at := now },
      some ⟨actor.id, "ticket_assigned", "ticket", some t.id⟩, none⟩

/-- Outcomes of `raise_ticket` (`routes/customer.py` lines 273-326).
`Forbidden` covers the `customer_required` redirect and the
invalid-product / ownership check (line 290); `PolicyViolation` is the
expired-warranty-but-warranty-selected rejection (line 299);
`FormInvalid` a failed `TicketForm` validation. -/
inductive CreateError where
  | Forbidden
  | PolicyViolation
  | FormInvalid
deriving DecidableEq, Repr

/-- The ticket row inserted by `raise_ticket` on success
(`routes/customer.py` lines 307-314 together with the `Ticket` column
defaults of `models.py`): initial status `open`, unpaid, no repair cost,
and `is_warranty_covered = (repair_type = warranty and not
warranty_expired)` where `warranty_expired = product.warranty_expiry <
now`; `tn` stands for the generated ticket number. -/
def createdTicket (actor : User) (product : Product) (tn : String)
    (desc : String) (priority : String) (repair_type : String) (now : Nat) :
    Ticket :=
  { id := 0
    ticket_number := tn
    product_id := product.id
    customer_id := actor.id
    technician_id := none
    issue_description := desc
    status := "open"
    priority := priority
    repair_cost := none
    is_warranty_covered :=
      (repair_type == "warranty") && ! decide (product.warranty_expiry < now)
    is_paid := false
    is_deleted := false
    created_at := now
    updated_at := now }

/-- Embeds `raise_ticket` (`routes/customer.py` lines 273-326): guards in source
order — `customer_required` decorator, `TicketForm` validation
(`forms.py` lines 65-82 together with the `product_id` choices populated at
`routes/customer.py` lines 281-284: the selected product must be one of the
requesting customer's non-deleted products, or the `SelectField`
pre-validation fails; description at least 10 characters; priority and
repair type from the fixed choices), the ownership re-check of line 290,
then `warranty_expired = product.warranty_expiry < now` (line 295) and the
policy check: an expired product cannot be claimed as a warranty repair
(line 299).  On success inserts `createdTicket`. -/
def raise_ticket (actor : User) (product : Product) (tn : String)
    (desc : String) (priority : String) (repair_type : String) (now : Nat) :
    Except CreateError Ticket :=
  if actor.is_deleted ∨ actor.is_admin ∨ actor.is_technician then
    .error .Forbidden
  else if ¬ (product.user_id = actor.id ∧ product.is_deleted = false ∧
      10 ≤ desc.length ∧ priority ∈ validPriorities ∧
      (repair_type = "warranty" ∨ repair_type = "paid")) then
    .error .FormInvalid
  else if product.user_id ≠ actor.id then
    .error .Forbidden
  else if product.warranty_expiry < now ∧ repair_type = "warranty" then
    .error .PolicyViolation
  else
    .ok (createdTicket actor product tn desc priority repair_type now)

/-- Outcomes of `add_feedback` (`routes/customer.py` lines 400-438). -/
inductive FbError where
  | Forbidden
  | InvalidState
  | AlreadyExists
  | FormInvalid
deriving DecidableEq, Repr

/-- Embeds `add_feedback` (`routes/customer.py` lines 400-438): guards in source
order — `customer_required` decorator, ownership (line 407), status must be
`completed` or `closed` (line 411), no feedback attached yet (line 416),
`FeedbackForm` validation (`forms.py` lines 108-117: rating a 1-5 choice,
comment at most 500 characters).  `existing` is the feedback row already
attached to the ticket, if any. -/
def add_feedback (actor : User) (t : Ticket) (existing : Option Feedback)
    (rating : Nat) (comment : String) : Except FbError Feedback :=
  if actor.is_deleted ∨ actor.is_admin ∨ actor.is_technician then
    .error .Forbidden
  else if t.customer_id ≠ actor.id then
    .error .Forbidden
  else if ¬ (t.status = "completed" ∨ t.status = "closed") then
    .error .InvalidState
  else if existing.isSome then
    .error .AlreadyExists
  else if ¬ (1 ≤ rating ∧ rating ≤ 5 ∧ comment.length ≤ 500) then
    .error .FormInvalid
  else
    .ok ⟨t.id, actor.id, rating, comment⟩

/-- Result of an `add_note` request (`routes/technician.py` lines 194-225);
on error the ticket is unchanged. -/
structure NoteOutcome where
  ticket : Ticket
  error : Option UpdError
deriving DecidableEq, Repr

/-- Embeds `add_note` (`routes/technician.py` lines 194-225): guards in source
order — `technician_required` decorator, assigned-technician-or-admin
check (line 201), `AddRepairNoteForm` validation (note at least 5
characters).  On success appends a repair note and bumps the ticket's
`updated_at` only: no status change. -/
def add_note (actor : User) (t : Ticket) (text : String) (now : Nat) :
    NoteOutcome :=
  if actor.is_deleted ∨ (¬ actor.is_technician ∧ ¬ actor.is_admin) then
    ⟨t, some .Forbidden⟩
  else if t.technician_id ≠ some actor.id ∧ ¬ actor.is_admin then
    ⟨t, some .Forbidden⟩
  else if ¬ (5 ≤ text.length) then
    ⟨t, some .FormInvalid⟩
  else
    ⟨{ t with updated_at := now }, none⟩

/-- Stable insertion of an element into a list sorted by `le`. -/
def insertLe (le : α → α → Bool) (a : α) : List α → List α
  | [] => [a]
  | b :: bs => if le a b then a :: b :: bs else b :: insertLe le a bs

/-- Stable insertion sort by `le`: the model of a SQL `ORDER BY`. -/
def sortLe (le : α → α → Bool) : List α → List α
  | [] => []
  | a :: as => insertLe le a (sortLe le as)

/-- Strict lexicographic order on character lists by code point: the
comparison a SQL `ORDER BY` performs on string columns under the default
binary collation (byte-wise; identical to code-point order on the ASCII
status/priority constants this schema stores). -/
def charListLt : List Char → List Char → Bool
  | [], [] => false
  | [], _ :: _ => true
  | _ :: _, [] => false
  | a :: as, b :: bs =>
    if a.toNat < b.toNat then true
    else if b.toNat < a.toNat then false
    else charListLt as bs

/-- Binary-collation strict order on strings. -/
def sqlStrLt (a b : String) : Bool :=
  charListLt a.data b.data

/-- The SQL sort key of `order_by(Ticket.priority.desc(),
Ticket.created_at.asc())` (`routes/technician.py` line 97): `priority` is a
string column, so the descending comparison is on strings under the
database's binary collation, with `created_at` ascending as tie-break. -/
def ticketListLe (a b : Ticket) : Bool :=
  if a.priority = b.priority then a.created_at ≤ b.created_at
  else sqlStrLt b.priority a.priority

/-- The technician ticket listing (`routes/technician.py` lines 78-97,
without the optional status/priority filters and pagination): the
technician's non-deleted tickets ordered by `priority` descending then
`created_at` ascending. -/
def technician_tickets (techId : Nat) (all : List Ticket) : List Ticket :=
  sortLe ticketListLe
    (all.filter fun t => t.technician_id == some techId && !t.is_deleted)

/-- The business triage rank of a priority: `urgent` above `high` above
`medium` above `low` (the order the spec's triage policy describes). -/
def businessRank (priority : String) : Nat :=
  if priority = "urgent" then 3
  else if priority = "high" then 2
  else if priority = "medium" then 1
  else 0

/-- The caller passes the `technician_required` decorator and the
assigned-technician-or-admin check of `update_status` / `add_note`
(`routes/technician.py` lines 12-23 and 141). -/
def canEditTicket (actor : User) (t : Ticket) : Prop :=
  actor.is_deleted = false ∧
    (actor.is_technician = true ∨ actor.is_admin = true) ∧
    (t.technician_id = some actor.id ∨ actor.is_admin = true)

/-- The caller passes the `customer_required` decorator
(`routes/customer.py` lines 15-27): not deleted, and neither an admin nor
a technician (those are redirected to their own dashboards). -/
def canAccessCustomer (u : User) : Prop :=
  u.is_deleted = false ∧ u.is_admin = false ∧ u.is_technician = false

/-- Concrete fixture: an active technician account. -/
def techUser : User :=
  ⟨7, "technician", true, false⟩

/-- Concrete fixture: an active admin account. -/
def adminUser : User :=
  ⟨1, "admin", true, false⟩

/-- Concrete fixture: an active customer account. -/
def custUser : User :=
  ⟨3, "customer", true, false⟩

/-- Concrete fixture: a paid-repair (non-warranty) ticket of customer 3,
assigned to technician 7, in progress, with no repair cost yet. -/
def baseTicket : Ticket :=
  { id := 11
    ticket_number := "TKT-20260101-AB12CD"
    product_id := 5
    customer_id := 3
    technician_id := some 7
    issue_description := "screen flickers badly"
    status := "in_progress"
    priority := "medium"
    repair_cost := none
    is_warranty_covered := false
    is_paid := false
    is_deleted := false
    created_at := 0
    updated_at := 0 }

/-- Concrete fixture: a product of customer 3 with a one-month warranty
bought at time 0. -/
def month1Product : Product :=
  ⟨5, "SN-1001", 0, 1, computeExpiry 0 1, false, 3⟩

/-- Concrete fixture: the ticket created by customer 3 raising a paid
repair on `month1Product` at time 10. -/
def paidCreatedTicket : Ticket :=
  createdTicket custUser month1Product "TKT-20260101-EF34GH"
    "screen flickers badly" "medium" "paid" 10

/-- Concrete fixture: `paidCreatedTicket` after the admin assigns
technician 7 at time 20. -/
def paidAssignedTicket : Ticket :=
  (assign_technician adminUser paidCreatedTicket [techUser] 7 20).ticket

/-- Concrete fixture: the outcome of technician 7 setting
`paidAssignedTicket`'s status directly to `closed` at time 30. -/
def directCloseOutcome : UpdateOutcome :=
  update_status techUser paidAssignedTicket "closed" none 30

/-!  ## Theorems  -/

/-- Helper: an authorized `update_status` call on a `completed` ticket is
rejected by the completed-ticket guard, whatever the form data. -/
theorem update_status_of_completed (actor : User) (t : Ticket)
    (newStatus : String) (newCost : Option Rat) (now : Nat)
    (hauth : canEditTicket actor t) (hs : t.status = "completed") :
    update_status actor t newStatus newCost now
      = ⟨t, none, some .InvalidTransition⟩ := by
  obtain ⟨hd, hr, ho⟩ := hauth
  have g1 : ¬ (actor.is_deleted = true ∨
      (¬ actor.is_technician = true ∧ ¬ actor.is_admin = true)) := by
    rintro (h | ⟨h1, h2⟩)
    · rw [hd] at h; exact Bool.false_ne_true h
    · rcases hr with h | h
      · exact h1 h
      · exact h2 h
  have g2 : ¬ (t.technician_id ≠ some actor.id ∧ ¬ actor.is_admin = true) := by
    rintro ⟨h1, h2⟩
    rcases ho with h | h
    · exact h1 h
    · exact h2 h
  unfold update_status
  rw [if_neg g1, if_neg g2, if_pos hs]

/-- Helper: an authorized `update_status` call on a not-yet-completed
ticket with valid form data either trips the missing-repair-cost gate (when
completing a paid repair with no cost supplied and none stored) and leaves
the ticket untouched, or commits the transition together with one
`ticket_status_updated` activity row. -/
theorem update_status_of_not_completed (actor : User) (t : Ticket)
    (newStatus : String) (newCost : Option Rat) (now : Nat)
    (hauth : canEditTicket actor t) (hs : ¬ t.status = "completed")
    (hv : newStatus ∈ validStatuses) (hc : costOK newCost = true) :
    update_status actor t newStatus newCost now =
      if newStatus = "completed" ∧ t.is_warranty_covered = false ∧
          newCost = none ∧ t.repair_cost = none then
        ⟨t, none, some .MissingRepairCost⟩
      else
        ⟨{ t with
            status := newStatus
            repair_cost := match newCost with
              | some c => some c
              | none => t.repair_cost
            updated_at := now },
          some ⟨actor.id, "ticket_status_updated", "ticket", some t.id⟩,
          none⟩ := by
  obtain ⟨hd, hr, ho⟩ := hauth
  have g1 : ¬ (actor.is_deleted = true ∨
      (¬ actor.is_technician = true ∧ ¬ actor.is_admin = true)) := by
    rintro (h | ⟨h1, h2⟩)
    · rw [hd] at h; exact Bool.false_ne_true h
    · rcases hr with h | h
      · exact h1 h
      · exact h2 h
  have g2 : ¬ (t.technician_id ≠ some actor.id ∧ ¬ actor.is_admin = true) := by
    rintro ⟨h1, h2⟩
    rcases ho with h | h
    · exact h1 h
    · exact h2 h
  have g3 : ¬ ¬ (newStatus ∈ validStatuses ∧ costOK newCost = true) :=
    fun h => h ⟨hv, hc⟩
  simp only [update_status]
  rw [if_neg g1, if_neg g2, if_neg hs, if_neg g3]
  by_cases hg : newStatus = "completed" ∧ t.is_warranty_covered = false ∧
      newCost = none ∧ t.repair_cost = none
  · rw [if_pos hg, if_pos hg]
  · rw [if_neg hg, if_neg hg, if_neg]
    · cases newCost <;> rfl
    · rintro ⟨-, h2, h3, h4⟩
      apply hg
      cases newCost with
      | some c => exact Option.noConfusion h4
      | none => exact ⟨h2, h3, rfl, h4⟩

/-- C1: For every ticket and every lifecycle operation performed after the
ticket's creation (technician/admin status update, technician assignment,
repair note, payment), the ticket's `is_warranty_covered` flag is
unchanged: whatever the actor, the form data and the outcome, the persisted
ticket's `is_warranty_covered` equals its prior value, so no operation
other than Create ever writes it. -/
theorem C1_warranty_snapshot_frame (actor : User) (t : Ticket)
    (newStatus : String) (newCost : Option Rat) (upi text : String)
    (users : List User) (techId now : Nat) :
    (update_status actor t newStatus newCost now).ticket.is_warranty_covered
        = t.is_warranty_covered ∧
    (pay_ticket actor t upi now).ticket.is_warranty_covered
        = t.is_warranty_covered ∧
    (assign_technician actor t users techId now).ticket.is_warranty_covered
        = t.is_warranty_covered ∧
    (add_note actor t text now).ticket.is_warranty_covered
        = t.is_warranty_covered := by
  refine ⟨?_, ?_, ?_, ?_⟩ <;>
  · simp only [update_status, pay_ticket, assign_technician, add_note]
    repeat' split
    all_goals rfl

/-- C2: For every ticket with `is_warranty_covered` false and `repair_cost`
absent, an authorized status update to `completed` that supplies no repair
cost fails with `MissingRepairCost` and leaves the ticket completely
unchanged (status, repair cost and `updated_at` keep their prior values,
and no activity row is written); and for any validated cost field, the
update to `completed` succeeds exactly when a non-null repair cost is
supplied in the call (the ticket itself having none). -/
theorem C2_missing_repair_cost (actor : User) (t : Ticket) (now : Nat)
    (hauth : canEditTicket actor t) (hs : ¬ t.status = "completed")
    (hw : t.is_warranty_covered = false) (hrc : t.repair_cost = none) :
    update_status actor t "completed" none now
        = ⟨t, none, some .MissingRepairCost⟩ ∧
    ∀ newCost : Option Rat, costOK newCost = true →
      ((update_status actor t "completed" newCost now).error = none ↔
        newCost ≠ none) := by
  have hv : "completed" ∈ validStatuses := by simp [validStatuses]
  constructor
  · rw [update_status_of_not_completed actor t "completed" none now hauth hs hv rfl]
    rw [if_pos ⟨rfl, hw, rfl, hrc⟩]
  · intro newCost hc
    rw [update_status_of_not_completed actor t "completed" newCost now hauth hs hv hc]
    cases newCost with
    | none =>
      rw [if_pos ⟨rfl, hw, rfl, hrc⟩]
      simp
    | some c =>
      rw [if_neg]
      · simp
      · rintro ⟨-, -, h, -⟩
        exact Option.noConfusion h

/-- C2 witness: on the concrete in-progress paid-repair ticket with no
stored cost, completing with no cost fails with `MissingRepairCost`
leaving the ticket unchanged, and completing with cost 250 succeeds. -/
theorem C2_missing_repair_cost_witness :
    update_status techUser baseTicket "completed" none 5
        = ⟨baseTicket, none, some .MissingRepairCost⟩ ∧
    ((update_status techUser baseTicket "completed" (some 250) 5).error = none ↔
      (some (250 : Rat) ≠ none)) := by
  have h := C2_missing_repair_cost techUser baseTicket 5
    (by constructor <;> simp [techUser, baseTicket, User.is_technician,
      User.is_admin]) (by simp [baseTicket]) (by simp [baseTicket])
    (by simp [baseTicket])
  exact ⟨h.1, h.2 (some 250) (by norm_num [costOK])⟩

/-- C5 counterexample: `closed` is not terminal in the code — an authorized
technician status edit on a closed ticket is accepted (the guard at
`routes/technician.py` line 146 only checks `completed`), moving the
ticket back to `in_progress`, contradicting the claim that any status-edit
attempt on a `closed` or `rejected` ticket fails with `InvalidTransition`
and leaves the status unchanged. -/
theorem C5_closed_not_terminal_counterexample :
    (update_status techUser { baseTicket with status := "closed" }
        "in_progress" none 5).error = none ∧
    (update_status techUser { baseTicket with status := "closed" }
        "in_progress" none 5).ticket.status = "in_progress" := by
  constructor <;> rfl

/-- C5 (amended): only `completed` is terminal for technician status
edits: an authorized edit attempt on a `completed` ticket fails with
`InvalidTransition` and the ticket is unchanged, while tickets in `closed`
or `rejected` remain editable (an authorized, validated edit that does not
trip the paid-repair completion gate succeeds). -/
theorem C5_completed_only_terminal (actor : User) (t : Ticket)
    (newStatus : String) (newCost : Option Rat) (now : Nat)
    (hauth : canEditTicket actor t) :
    (t.status = "completed" →
      update_status actor t newStatus newCost now
        = ⟨t, none, some .InvalidTransition⟩) ∧
    ((t.status = "closed" ∨ t.status = "rejected") →
      newStatus ∈ validStatuses → costOK newCost = true →
      ¬ (newStatus = "completed" ∧ t.is_warranty_covered = false ∧
          newCost = none ∧ t.repair_cost = none) →
      (update_status actor t newStatus newCost now).error = none ∧
      (update_status actor t newStatus newCost now).ticket.status
        = newStatus) := by
  constructor
  · intro hs
    exact update_status_of_completed actor t newStatus newCost now hauth hs
  · intro hst hv hc hg
    have hs : ¬ t.status = "completed" := by
      rcases hst with h | h <;> rw [h] <;> decide
    rw [update_status_of_not_completed actor t newStatus newCost now hauth hs hv hc]
    rw [if_neg hg]
    exact ⟨rfl, rfl⟩

/-- C5 witness: concretely, editing the completed version of the fixture
ticket fails with `InvalidTransition`, and editing its closed version back
to `in_progress` succeeds. -/
theorem C5_completed_only_terminal_witness :
    update_status techUser { baseTicket with status := "completed" }
        "in_progress" none 5
      = ⟨{ baseTicket with status := "completed" }, none,
          some .InvalidTransition⟩ := by
  have h := C5_completed_only_terminal techUser
    { baseTicket with status := "completed" } "in_progress" none 5
    (by constructor <;> simp [techUser, baseTicket, User.is_technician,
      User.is_admin])
  exact h.1 rfl

/-- C3 counterexample: a Pay attempt by the owning customer on a
warranty-covered ticket in status `open` does not fail with
`NotApplicable`: the status gate runs first (`routes/customer.py` line
358), so the attempt fails with `InvalidState`, contradicting the claim
that the failure is `NotApplicable` regardless of status. -/
theorem C3_pay_on_covered_counterexample :
    ({ baseTicket with is_warranty_covered := true, status := "open" }
        : Ticket).is_warranty_covered = true ∧
    (pay_ticket custUser
        { baseTicket with is_warranty_covered := true, status := "open" }
        "upi@bank" 5).error = some .InvalidState ∧
    some PayError.InvalidState ≠ some PayError.NotApplicable := by
  refine ⟨rfl, rfl, by decide⟩

/-- C3 (amended): a Pay attempt by the owning customer on a
warranty-covered ticket always fails and leaves the ticket unchanged, but
the error depends on status: `NotApplicable` when the status is
`completed` or `closed`, and `InvalidState` for every other status (the
status gate precedes the coverage gate). -/
theorem C3_pay_on_covered (actor : User) (t : Ticket) (upi : String)
    (now : Nat) (hacc : canAccessCustomer actor)
    (hown : t.customer_id = actor.id) (hw : t.is_warranty_covered = true) :
    (pay_ticket actor t upi now).ticket = t ∧
    ((t.status = "completed" ∨ t.status = "closed") →
      (pay_ticket actor t upi now).error = some .NotApplicable) ∧
    (¬ (t.status = "completed" ∨ t.status = "closed") →
      (pay_ticket actor t upi now).error = some .InvalidState) := by
  obtain ⟨hd, ha, ht⟩ := hacc
  have g1 : ¬ (actor.is_deleted = true ∨ actor.is_admin = true ∨
      actor.is_technician = true) := by
    simp [hd, ha, ht]
  have g2 : ¬ t.customer_id ≠ actor.id := fun h => h hown
  unfold pay_ticket
  rw [if_neg g1, if_neg g2]
  by_cases hst : t.status = "completed" ∨ t.status = "closed"
  · rw [if_neg (not_not_intro hst), if_pos hw]
    exact ⟨rfl, fun _ => rfl, fun h => absurd hst h⟩
  · rw [if_pos hst]
    exact ⟨rfl, fun h => absurd h hst, fun _ => rfl⟩

/-- C3 witness: concretely, the covered completed version of the fixture
ticket yields `NotApplicable` with the ticket unchanged, and its covered
open version yields `InvalidState`. -/
theorem C3_pay_on_covered_witness :
    (pay_ticket custUser
        { baseTicket with is_warranty_covered := true, status := "completed" }
        "upi@bank" 5).ticket
      = { baseTicket with is_warranty_covered := true, status := "completed" } ∧
    (pay_ticket custUser
        { baseTicket with is_warranty_covered := true, status := "completed" }
        "upi@bank" 5).error = some .NotApplicable := by
  have h := C3_pay_on_covered custUser
    { baseTicket with is_warranty_covered := true, status := "completed" }
    "upi@bank" 5
    (by refine ⟨rfl, ?_, ?_⟩ <;> decide) rfl rfl
  exact ⟨h.1, h.2.1 (Or.inl rfl)⟩

/-- C4 counterexample: Pay is not the only path into `closed` for a paid
repair.  Concretely: customer 3 raises a paid-repair ticket, the admin
assigns technician 7 (status becomes `in_progress`), and the technician
then sets the status directly to `closed` through `update_status` — the
status form offers `closed` and the completion gate only guards
`completed` — so the ticket reaches `closed` with `is_paid` still false
and no Pay ever run. -/
theorem C4_direct_close_counterexample :
    raise_ticket custUser month1Product "TKT-20260101-EF34GH"
        "screen flickers badly" "medium" "paid" 10 = .ok paidCreatedTicket ∧
    paidCreatedTicket.is_warranty_covered = false ∧
    (assign_technician adminUser paidCreatedTicket [techUser] 7 20).error
      = none ∧
    paidAssignedTicket.status = "in_progress" ∧
    directCloseOutcome.error = none ∧
    directCloseOutcome.ticket.status = "closed" ∧
    directCloseOutcome.ticket.is_paid = false := by
  refine ⟨rfl, rfl, rfl, rfl, rfl, rfl, rfl⟩

/-- C4 (amended): a successful Pay does set `is_paid = true` and force
`status = closed` (with one `payment_processed` activity row), but it is
not the only operation that moves a paid-repair ticket into `closed`: the
status form offers `closed` (it is among the valid status choices), and an
authorized status update to `closed` on any not-yet-completed ticket
succeeds, setting the status to `closed` while leaving `is_paid`
untouched. -/
theorem C4_pay_closes_and_direct_close (actor : User) (t : Ticket)
    (upi : String) (now : Nat) (actor2 : User) (t2 : Ticket)
    (hacc : canAccessCustomer actor) (hown : t.customer_id = actor.id)
    (hst : t.status = "completed" ∨ t.status = "closed")
    (hw : t.is_warranty_covered = false) (hp : t.is_paid = false)
    (hupi : 3 ≤ upi.length ∧ upi.length ≤ 100)
    (hauth2 : canEditTicket actor2 t2) (hs2 : ¬ t2.status = "completed") :
    pay_ticket actor t upi now =
      ⟨{ t with is_paid := true, status := "closed", updated_at := now },
        some ⟨actor.id, "payment_processed", "ticket", some t.id⟩, none⟩ ∧
    "closed" ∈ validStatuses ∧
    (update_status actor2 t2 "closed" none now).error = none ∧
    (update_status actor2 t2 "closed" none now).ticket.status = "closed" ∧
    (update_status actor2 t2 "closed" none now).ticket.is_paid
      = t2.is_paid := by
  obtain ⟨hd, ha, ht⟩ := hacc
  have g1 : ¬ (actor.is_deleted = true ∨ actor.is_admin = true ∨
      actor.is_technician = true) := by
    simp [hd, ha, ht]
  have g2 : ¬ t.customer_id ≠ actor.id := fun h => h hown
  have hcv : "closed" ∈ validStatuses := by simp [validStatuses]
  have hupd := update_status_of_not_completed actor2 t2 "closed" none now
    hauth2 hs2 hcv rfl
  have hgate : ¬ (("closed" : String) = "completed" ∧
      t2.is_warranty_covered = false ∧ (none : Option Rat) = none ∧
      t2.repair_cost = none) := by
    rintro ⟨h, -⟩
    exact absurd h (by decide)
  rw [if_neg hgate] at hupd
  refine ⟨?_, hcv, ?_, ?_, ?_⟩
  · unfold pay_ticket
    rw [if_neg g1, if_neg g2, if_neg (not_not_intro hst),
      if_neg (by simp [hw]), if_neg (by simp [hp]),
      if_neg (not_not_intro hupi)]
  · rw [hupd]
  · rw [hupd]
  · rw [hupd]

/-- C4 witness: concretely, paying the completed paid-repair version of
the fixture ticket (cost 250) succeeds setting `is_paid` and closing it,
`closed` is an offered status choice, and a direct technician status
update to `closed` on the in-progress fixture ticket succeeds without
touching `is_paid`. -/
theorem C4_pay_closes_and_direct_close_witness :
    pay_ticket custUser
        { baseTicket with status := "completed", repair_cost := some 250 }
        "upi@bank" 5 =
      ⟨{ { baseTicket with status := "completed", repair_cost := some 250 }
          with is_paid := true, status := "closed", updated_at := 5 },
        some ⟨custUser.id, "payment_processed", "ticket",
          some ({ baseTicket with
                    status := "completed"
                    repair_cost := some 250 } : Ticket).id⟩, none⟩ ∧
    "closed" ∈ validStatuses ∧
    (update_status techUser baseTicket "closed" none 5).error = none ∧
    (update_status techUser baseTicket "closed" none 5).ticket.status
      = "closed" ∧
    (update_status techUser baseTicket "closed" none 5).ticket.is_paid
      = baseTicket.is_paid := by
  exact C4_pay_closes_and_direct_close custUser
    { baseTicket with status := "completed", repair_cost := some 250 }
    "upi@bank" 5 techUser baseTicket
    (by refine ⟨rfl, ?_, ?_⟩ <;> decide) rfl (Or.inl rfl) rfl rfl
    (by constructor <;> decide)
    (by refine ⟨rfl, ?_, ?_⟩ <;> simp [techUser, baseTicket,
      User.is_technician, User.is_admin])
    (by simp [baseTicket])

/-- C6 counterexample: assignment does not preserve a status already past
`open` — `assign_technician` sets `status = in_progress` unconditionally
(`routes/admin.py` line 326), so assigning on a `waiting_for_parts` ticket
resets it to `in_progress`, contradicting the claim that assignment on a
ticket past `open` does not reset the status. -/
theorem C6_assign_resets_status_counterexample :
    ({ baseTicket with status := "waiting_for_parts", technician_id := none }
        : Ticket).status = "waiting_for_parts" ∧
    (assign_technician adminUser
        { baseTicket with status := "waiting_for_parts", technician_id := none }
        [techUser] 7 5).error = none ∧
    (assign_technician adminUser
        { baseTicket with status := "waiting_for_parts", technician_id := none }
        [techUser] 7 5).ticket.status = "in_progress" ∧
    ("waiting_for_parts" : String) ≠ "in_progress" := by
  refine ⟨rfl, rfl, rfl, by decide⟩

/-- C6 (amended): every successful admin AssignTechnician call sets the
ticket's technician and unconditionally sets status to `in_progress` (an
`open` ticket transitions to `in_progress`; a ticket already past `open`,
such as `waiting_for_parts`, is also reset to `in_progress`), writes
exactly one `ticket_assigned` ActivityLog entry, and the offered
technician candidates are exactly the active, non-deleted accounts with
role technician. -/
theorem C6_assign_technician_effect (actor : User) (t : Ticket)
    (users : List User) (techId now : Nat)
    (hd : actor.is_deleted = false) (ha : actor.is_admin = true)
    (htd : t.is_deleted = false)
    (hmem : (technician_choices users).any (fun u => u.id == techId)
      = true) :
    assign_technician actor t users techId now =
      ⟨{ t with
          technician_id := some techId
          status := "in_progress"
          updated_at := now },
        some ⟨actor.id, "ticket_assigned", "ticket", some t.id⟩, none⟩ ∧
    ∀ u : User, u ∈ technician_choices users ↔
      (u ∈ users ∧ u.role = "technician" ∧ u.is_active = true ∧
        u.is_deleted = false) := by
  constructor
  · unfold assign_technician
    rw [if_neg (by simp [hd, ha]), if_neg (by simp [htd]),
      if_neg (not_not_intro hmem)]
  · intro u
    simp [technician_choices, List.mem_filter, and_assoc]

/-- C6 witness: concretely, assigning technician 7 to the open, unassigned
version of the fixture ticket succeeds with status `in_progress` and one
`ticket_assigned` log row, and the technician fixture account is a
candidate while the customer fixture account is characterized out. -/
theorem C6_assign_technician_effect_witness :
    assign_technician adminUser
        { baseTicket with status := "open", technician_id := none }
        [techUser, custUser] 7 5 =
      ⟨{ { baseTicket with status := "open", technician_id := none } with
          technician_id := some 7
          status := "in_progress"
          updated_at := 5 },
        some ⟨adminUser.id, "ticket_assigned", "ticket",
          some ({ baseTicket with status := "open", technician_id := none }
            : Ticket).id⟩, none⟩ ∧
    (techUser ∈ technician_choices [techUser, custUser] ↔
      (techUser ∈ [techUser, custUser] ∧ techUser.role = "technician" ∧
        techUser.is_active = true ∧ techUser.is_deleted = false)) := by
  have h := C6_assign_technician_effect adminUser
    { baseTicket with status := "open", technician_id := none }
    [techUser, custUser] 7 5 rfl (by decide) rfl (by decide)
  exact ⟨h.1, h.2 techUser⟩

/-- C7: For every authorized, validated ticket-creation request by the
owning customer (the selected product being one of the form's offered
choices: owned by the caller and not soft-deleted): if the customer
selected the warranty-covered repair type while the product's warranty
expiry is already in the past, creation fails with `PolicyViolation` (no
ticket is created); otherwise creation succeeds and the ticket starts in
status `open` with `is_warranty_covered` true exactly when the choice was
`warranty` and the product was not expired at creation time. -/
theorem C7_create_warranty_policy (actor : User) (product : Product)
    (tn desc priority rt : String) (now : Nat)
    (hacc : canAccessCustomer actor)
    (hform : 10 ≤ desc.length ∧ priority ∈ validPriorities ∧
      (rt = "warranty" ∨ rt = "paid"))
    (hown : product.user_id = actor.id)
    (hpdel : product.is_deleted = false) :
    (product.warranty_expiry < now ∧ rt = "warranty" →
      raise_ticket actor product tn desc priority rt now
        = .error .PolicyViolation) ∧
    (¬ (product.warranty_expiry < now ∧ rt = "warranty") →
      raise_ticket actor product tn desc priority rt now
        = .ok (createdTicket actor product tn desc priority rt now) ∧
      (createdTicket actor product tn desc priority rt now).status
        = "open" ∧
      ((createdTicket actor product tn desc priority rt now).is_warranty_covered
          = true ↔
        (rt = "warranty" ∧ ¬ product.warranty_expiry < now))) := by
  obtain ⟨hd, ha, ht⟩ := hacc
  have g1 : ¬ (actor.is_deleted = true ∨ actor.is_admin = true ∨
      actor.is_technician = true) := by
    simp [hd, ha, ht]
  have g2 : ¬ ¬ (product.user_id = actor.id ∧ product.is_deleted = false ∧
      10 ≤ desc.length ∧ priority ∈ validPriorities ∧
      (rt = "warranty" ∨ rt = "paid")) :=
    not_not_intro ⟨hown, hpdel, hform.1, hform.2.1, hform.2.2⟩
  have g3 : ¬ product.user_id ≠ actor.id := fun h => h hown
  unfold raise_ticket
  rw [if_neg g1, if_neg g2, if_neg g3]
  constructor
  · intro hpol
    rw [if_pos hpol]
  · intro hpol
    rw [if_neg hpol]
    refine ⟨rfl, rfl, ?_⟩
    simp [createdTicket]

/-- C7 witness: concretely, customer 3 raising a `warranty` repair on the
one-month product while its warranty is still active (time 10) succeeds,
producing an `open`, warranty-covered ticket. -/
theorem C7_create_warranty_policy_witness :
    raise_ticket custUser month1Product "TKT-20260101-EF34GH"
        "screen flickers badly" "medium" "warranty" 10
      = .ok (createdTicket custUser month1Product "TKT-20260101-EF34GH"
          "screen flickers badly" "medium" "warranty" 10) ∧
    (createdTicket custUser month1Product "TKT-20260101-EF34GH"
        "screen flickers badly" "medium" "warranty" 10).status = "open" ∧
    (createdTicket custUser month1Product "TKT-20260101-EF34GH"
        "screen flickers badly" "medium" "warranty" 10).is_warranty_covered
      = true := by
  have h := C7_create_warranty_policy custUser month1Product
    "TKT-20260101-EF34GH" "screen flickers badly" "medium" "warranty" 10
    (by refine ⟨rfl, ?_, ?_⟩ <;> decide)
    (by refine ⟨by decide, by decide, Or.inl rfl⟩) rfl rfl
  have h2 := h.2 (by decide)
  exact ⟨h2.1, h2.2.1, h2.2.2.mpr ⟨rfl, by decide⟩⟩

/-- C8 counterexample: at the exact instant `now = expiry` the derived
coverage state is `expiring_soon`, not `expired` — the code's comparison
is strict (`warranty_expiry < now`, `models.py` line 102) — contradicting
the claim that the state is `expired` iff `now ≥ expiry` (and in
particular at `now = expiry`). -/
theorem C8_expiry_instant_counterexample :
    month1Product.warranty_expiry ≤ month1Product.warranty_expiry ∧
    month1Product.warranty_status month1Product.warranty_expiry
      = "expiring_soon" ∧
    ("expiring_soon" : String) ≠ "expired" := by
  refine ⟨le_refl _, rfl, by decide⟩

/-- C8 (amended): for every product, warranty expiry equals purchase date
plus 30 × warranty_months days, and the derived coverage state is
`expired` iff `now > expiry` (strictly — at the exact instant
`now = expiry` the state is `expiring_soon`), `expiring_soon` iff
`now ≤ expiry` and `expiry − now < 30` days, and `active` otherwise. -/
theorem C8_coverage_state (p : Product) (pd m now : Nat)
    (hdel : p.is_deleted = false)
    (hexp : p.warranty_expiry = computeExpiry pd m) :
    p.warranty_expiry = pd + 30 * m * secondsPerDay ∧
    (p.warranty_status now = "expired" ↔ p.warranty_expiry < now) ∧
    (p.warranty_status now = "expiring_soon" ↔
      now ≤ p.warranty_expiry ∧
        p.warranty_expiry - now < 30 * secondsPerDay) ∧
    (p.warranty_status now = "active" ↔
      now ≤ p.warranty_expiry ∧
        30 * secondsPerDay ≤ p.warranty_expiry - now) := by
  refine ⟨by rw [hexp]; rfl, ?_, ?_, ?_⟩ <;>
  · unfold Product.warranty_status
    rw [if_neg (by simp [hdel])]
    split_ifs with h1 h2 <;> simp_all [secondsPerDay] <;> omega

/-- C8 witness: the amended characterization evaluated on the concrete
one-month product at time 100 (warranty still active). -/
theorem C8_coverage_state_witness :
    month1Product.warranty_expiry = 0 + 30 * 1 * secondsPerDay ∧
    (month1Product.warranty_status 100 = "expired" ↔
      month1Product.warranty_expiry < 100) ∧
    (month1Product.warranty_status 100 = "expiring_soon" ↔
      100 ≤ month1Product.warranty_expiry ∧
        month1Product.warranty_expiry - 100 < 30 * secondsPerDay) ∧
    (month1Product.warranty_status 100 = "active" ↔
      100 ≤ month1Product.warranty_expiry ∧
        30 * secondsPerDay ≤ month1Product.warranty_expiry - 100) :=
  C8_coverage_state month1Product 0 1 100 rfl rfl

/-- C9: the technician ticket listing sorts `priority` descending as a raw
string column, which is lexicographic, not the business triage order: with
two same-age tickets of priorities `high` and `low`, the listing puts the
`low` ticket first (because the string `low` is greater than the string
`high`), while the claimed triage order (urgent before high before medium
before low) requires the `high` ticket first.  The code evaluated at this
failing input contradicts the stated ordering policy. -/
theorem C9_triage_order_violated :
    technician_tickets 7
        [{ baseTicket with id := 1, priority := "high" },
         { baseTicket with id := 2, priority := "low" }]
      = [{ baseTicket with id := 2, priority := "low" },
         { baseTicket with id := 1, priority := "high" }] ∧
    businessRank "high" > businessRank "low" := by
  refine ⟨by decide, by decide⟩

/-- C10: payment is not a precondition of feedback: for every ticket owned
by the calling customer whose status is `completed` or `closed` and which
has no feedback yet, AddFeedback succeeds — in particular for a paid
repair with `is_paid` still false, since the outcome of `add_feedback`
never depends on the `is_paid` field at all. -/
theorem C10_feedback_ignores_payment (actor : User) (t : Ticket)
    (rating : Nat) (comment : String)
    (hacc : canAccessCustomer actor) (hown : t.customer_id = actor.id)
    (hst : t.status = "completed" ∨ t.status = "closed")
    (hform : 1 ≤ rating ∧ rating ≤ 5 ∧ comment.length ≤ 500) :
    add_feedback actor t none rating comment
      = .ok ⟨t.id, actor.id, rating, comment⟩ ∧
    ∀ (b₁ b₂ : Bool) (existing : Option Feedback),
      add_feedback actor { t with is_paid := b₁ } existing rating comment
        = add_feedback actor { t with is_paid := b₂ } existing rating
            comment := by
  obtain ⟨hd, ha, ht⟩ := hacc
  constructor
  · have g1 : ¬ (actor.is_deleted = true ∨ actor.is_admin = true ∨
        actor.is_technician = true) := by
      simp [hd, ha, ht]
    have g2 : ¬ t.customer_id ≠ actor.id := fun h => h hown
    unfold add_feedback
    rw [if_neg g1, if_neg g2, if_neg (not_not_intro hst),
      if_neg (by simp), if_neg (not_not_intro hform)]
  · intro b₁ b₂ existing
    rfl

/-- C10 witness: concretely, feedback on the completed version of the
fixture ticket — a paid repair (`is_warranty_covered = false`) that is
still unpaid (`is_paid = false`) — succeeds. -/
theorem C10_feedback_ignores_payment_witness :
    add_feedback custUser { baseTicket with status := "completed" } none 5
        "great service"
      = .ok ⟨({ baseTicket with status := "completed" } : Ticket).id,
          custUser.id, 5, "great service"⟩ ∧
    ({ baseTicket with status := "completed" } : Ticket).is_warranty_covered
      = false ∧
    ({ baseTicket with status := "completed" } : Ticket).is_paid = false := by
  have h := C10_feedback_ignores_payment custUser
    { baseTicket with status := "completed" } 5 "great service"
    (by refine ⟨rfl, ?_, ?_⟩ <;> decide) rfl (Or.inl rfl)
    (by refine ⟨by decide, by decide, by decide⟩)
  exact ⟨h.1, rfl, rfl⟩

end WarrantyRepair
